import Mathlib

/-!
Shallow embedding of the dilation protocol engine of this repository
(Go package `wormhole`, file with `dilationProtocol` and its three state
machines), together with theorems settling the frozen claims.

Modelling conventions:
* Go string-typed state enums (`ManagerState`, `ConnectorState`,
  `L2ConnState`, `Role`) are Lean `String`s with one definition per Go
  constant, so that the Go zero value `""` is representable exactly as in
  the source.
* Go int-typed event enums are Lean `Int`s with one definition per Go
  `iota` constant; the state machines accept any `Int`, as the Go
  functions accept any value of the underlying `int` type.
* Go string comparison (`<`, `>`) is byte-wise lexicographic over the
  UTF-8 encoding; Lean's `String` order is lexicographic over the
  character (code point) sequence.  UTF-8 is order-preserving, so the two
  orders agree, and the sides used by the protocol are ASCII hex strings
  anyway.
* A Go method that mutates the receiver and returns a value is embedded
  as a pure function returning the pair (returned value, updated state),
  or (next state, outputs) for the state machines, whose Go bodies read
  `d.managerState` at entry and write it through `managerToNewState`.
* `error` return values become `Option String` (`none` = nil error).
-/

abbrev ManagerState := String
abbrev ConnectorState := String
abbrev L2ConnState := String
abbrev Role := String

abbrev ManagerInputEvent := Int
abbrev ManagerOutputEvent := Int
abbrev ConnectorInputEvent := Int
abbrev ConnectorOutputEvent := Int
abbrev L2ConnInputEvent := Int
abbrev L2ConnOutputEvent := Int

/-- Go: placeholder type `type Candidate string`. -/
abbrev Candidate := String

def ManagerStateWaiting : ManagerState := "ManagerStateWaiting"

def ManagerStateWanting : ManagerState := "ManagerStateWanting"

def ManagerStateConnecting : ManagerState := "ManagerStateConnecting"

def ManagerStateConnected : ManagerState := "ManagerStateConnected"

def ManagerStateFlushing : ManagerState := "ManagerStateFlushing"

def ManagerStateLonely : ManagerState := "ManagerStateLonely"

def ManagerStateAbandoning : ManagerState := "ManagerStateAbandoning"

def ManagerStateStopping : ManagerState := "ManagerStateStopping"

def ManagerStateStopped : ManagerState := "ManagerStateStopped"

def ManagerInputEventStart : ManagerInputEvent := 0

def ManagerInputEventRxPlease : ManagerInputEvent := 1

def ManagerInputEventConnectionMade : ManagerInputEvent := 2

def ManagerInputEventRxReconnecting : ManagerInputEvent := 3

def ManagerInputEventRxReconnect : ManagerInputEvent := 4

def ManagerInputEventConnectionLostLeader : ManagerInputEvent := 5

def ManagerInputEventConnectionLostFollower : ManagerInputEvent := 6

def ManagerInputEventRxHints : ManagerInputEvent := 7

def ManagerInputEventStop : ManagerInputEvent := 8

def ManagerOutputEventSendPlease : ManagerOutputEvent := 0

def ManagerOutputEventNotifyStopped : ManagerOutputEvent := 1

def ManagerOutputEventRxHints : ManagerOutputEvent := 2

def ManagerOutputEventChooseRole : ManagerOutputEvent := 3

def ManagerOutputEventStartConnectingIgnoreMsg : ManagerOutputEvent := 4

def ManagerOutputEventUseHints : ManagerOutputEvent := 5

def ManagerOutputEventStopConnecting : ManagerOutputEvent := 6

def ManagerOutputEventSendReconnecting : ManagerOutputEvent := 7

def ManagerOutputEventStartConnecting : ManagerOutputEvent := 8

def ManagerOutputEventSendReconnect : ManagerOutputEvent := 9

def ManagerOutputEventAbandonConnection : ManagerOutputEvent := 10

def ConnectorStateConnecting : ConnectorState := "ConnectorStateConnecting"

def ConnectorStateConnected : ConnectorState := "ConnectorStateConnected"

def ConnectorStateStopped : ConnectorState := "ConnectorStateStopped"

def ConnectorInputEventListenerReady : ConnectorInputEvent := 0

def ConnectorInputEventAccept : ConnectorInputEvent := 1

def ConnectorInputEventAddCandidate : ConnectorInputEvent := 2

def ConnectorInputEventGotHints : ConnectorInputEvent := 3

def ConnectorInputEventAddRelay : ConnectorInputEvent := 4

def ConnectorInputEventStop : ConnectorInputEvent := 5

def ConnectorOutputEventPublishHints : ConnectorOutputEvent := 0

def ConnectorOutputEventSelectAndStopRemaining : ConnectorOutputEvent := 1

def ConnectorOutputEventConsider : ConnectorOutputEvent := 2

def ConnectorOutputEventUseHints : ConnectorOutputEvent := 3

def ConnectorOutputEventStopEverything : ConnectorOutputEvent := 4

def L2ConnStateUnselected : L2ConnState := "L2ConnStateUnselected"

def L2ConnStateSelecting : L2ConnState := "L2ConnStateSelecting"

def L2ConnStateSelected : L2ConnState := "L2ConnStateSelected"

def L2ConnInputEventGotKCM : L2ConnInputEvent := 0

def L2ConnInputEventSelect : L2ConnInputEvent := 1

def L2ConnInputEventGotRecord : L2ConnInputEvent := 2

def L2ConnOutputEventAddCandidate : L2ConnOutputEvent := 0

def L2ConnOutputEventSetManager : L2ConnOutputEvent := 1

def L2ConnOutputEventCanSendRecords : L2ConnOutputEvent := 2

def L2ConnOutputEventProcessInboundQueue : L2ConnOutputEvent := 3

def L2ConnOutputEventQueueInboundRecord : L2ConnOutputEvent := 4

def L2ConnOutputEventDeliverRecord : L2ConnOutputEvent := 5

def Leader : Role := "Leader"

def Follower : Role := "Follower"

/-- Go struct `dilationProtocol`.  The `sync.Mutex` fields and the two
channels (`managerInputEv`, `msgInput`) are I/O-shell artifacts with no
bearing on the pure state; all data fields are kept.  `state` is the Go
int-typed `DilationState`. -/
structure dilationProtocol where
  versions : List String
  state : Int
  managerState : ManagerState
  connectorState : ConnectorState
  l2ConnState : L2ConnState
  role : Role
  side : String
deriving DecidableEq

/-- Lexicographic comparison of two character lists: the mirror of Go's
byte-wise lexicographic `<` on strings (UTF-8 byte order agrees with code
point order, so comparing the character sequences is equivalent).
Structural recursion, so it evaluates inside the kernel. -/
def goLessChars : List Char → List Char → Bool
  | [], [] => false
  | [], _ :: _ => true
  | _ :: _, [] => false
  | a :: as, b :: bs =>
    if a < b then true
    else if b < a then false
    else goLessChars as bs

/-- Go's `s < t` on strings, as a computable Bool. -/
def goStringLess (s t : String) : Bool :=
  goLessChars s.data t.data

/-- `goLessChars` decides the lexicographic order on `List Char`. -/
theorem goLessChars_iff (l₁ l₂ : List Char) : goLessChars l₁ l₂ = true ↔ l₁ < l₂ := by
  induction l₁ generalizing l₂ with
  | nil =>
    cases l₂ with
    | nil => exact iff_of_false (by simp [goLessChars]) fun h => nomatch h
    | cons b bs => exact iff_of_true rfl List.Lex.nil
  | cons a as ih =>
    cases l₂ with
    | nil => exact iff_of_false (by simp [goLessChars]) fun h => nomatch h
    | cons b bs =>
      by_cases h1 : a < b
      · exact iff_of_true (by simp [goLessChars, h1]) (List.Lex.rel h1)
      · by_cases h2 : b < a
        · refine iff_of_false (by simp [goLessChars, h1, h2]) ?_
          intro h
          cases h with
          | cons h' => exact absurd h2 (lt_irrefl _)
          | rel h' => exact h1 h'
        · have hab : a = b := le_antisymm (not_lt.mp h2) (not_lt.mp h1)
          subst hab
          have hred : goLessChars (a :: as) (a :: bs) = goLessChars as bs := by
            simp [goLessChars]
          rw [hred, ih bs]
          constructor
          · exact fun h => List.Lex.cons h
          · intro h
            cases h with
            | cons h' => exact h'
            | rel h' => exact absurd h' (lt_irrefl _)

/-- `goStringLess` decides Lean's `<` on `String` (lexicographic on the
character sequence). -/
theorem goStringLess_iff (s t : String) : goStringLess s t = true ↔ s < t := by
  rw [String.lt_iff_toList_lt]
  exact goLessChars_iff s.data t.data

/-- Go `InitDilation`.  `genSide()` calls `crypto.RandSideID()`, an
external randomness source outside the core, so the generated side is a
parameter here.  The Go composite literal names only `versions`, `side`
and `managerState`; every other field keeps its Go zero value — the empty
string for the string-typed fields (`connectorState`, `l2ConnState`,
`role`) and `0` for the int-typed `state`. -/
def InitDilation (mySide : String) : dilationProtocol :=
  { versions := ["1"]
    state := 0
    managerState := ManagerStateWaiting
    connectorState := ""
    l2ConnState := ""
    role := ""
    side := mySide }

/-- Go method `chooseRole`: `if d.side > otherSide` sets `d.role = Leader`;
`else if d.side < otherSide` sets `d.role = Follower`; else returns the
error `"sides shouldn't be equal"` leaving `d` untouched.  Embedded as
(error, updated engine); `d.side > otherSide` is written
`otherSide < d.side`. -/
def chooseRole (d : dilationProtocol) (otherSide : String) :
    Option String × dilationProtocol :=
  if goStringLess otherSide d.side then
    (none, { d with role := Leader })
  else if goStringLess d.side otherSide then
    (none, { d with role := Follower })
  else
    (some "sides shouldn't be equal", d)

/-- Claim C1: for distinct sides, `chooseRole` assigns `Leader` when the
local side is lexicographically strictly greater than the peer side and
`Follower` when it is strictly less, with no error; it errors exactly when
the two sides are equal, and then leaves the engine (in particular its
`role` field) unchanged. -/
theorem chooseRole_spec (d : dilationProtocol) (otherSide : String) :
    (otherSide < d.side →
      chooseRole d otherSide = (none, { d with role := Leader })) ∧
    (d.side < otherSide →
      chooseRole d otherSide = (none, { d with role := Follower })) ∧
    ((chooseRole d otherSide).1.isSome ↔ d.side = otherSide) ∧
    (d.side = otherSide → (chooseRole d otherSide).2 = d) := by
  unfold chooseRole
  rcases lt_trichotomy otherSide d.side with h | h | h
  · rw [if_pos ((goStringLess_iff _ _).mpr h)]
    exact ⟨fun _ => rfl, fun h' => absurd h' (lt_asymm h), by simp [h.ne'],
      fun h' => absurd h' h.ne'⟩
  · subst h
    rw [if_neg fun hc => lt_irrefl _ ((goStringLess_iff _ _).mp hc),
      if_neg fun hc => lt_irrefl _ ((goStringLess_iff _ _).mp hc)]
    exact ⟨fun h' => absurd h' (lt_irrefl _), fun h' => absurd h' (lt_irrefl _),
      by simp, fun _ => rfl⟩
  · rw [if_neg fun hc => lt_asymm h ((goStringLess_iff _ _).mp hc),
      if_pos ((goStringLess_iff _ _).mpr h)]
    exact ⟨fun h' => absurd h' (lt_asymm h), fun _ => rfl, by simp [h.ne],
      fun h' => absurd h' h.ne⟩

/-- Witness for C1 at concrete inputs: strictly greater local side elects
Leader, strictly smaller elects Follower, equal sides leave the engine
unchanged. -/
theorem chooseRole_spec_witness :
    (("aaaa" : String) < "ffff" ∧
      chooseRole (InitDilation "ffff") "aaaa"
        = (none, { InitDilation "ffff" with role := Leader })) ∧
    (("aaaa" : String) < "ffff" ∧
      chooseRole (InitDilation "aaaa") "ffff"
        = (none, { InitDilation "aaaa" with role := Follower })) ∧
    (chooseRole (InitDilation "aaaa") "aaaa").2 = InitDilation "aaaa" :=
  ⟨⟨(goStringLess_iff _ _).mp (by decide),
      (chooseRole_spec (InitDilation "ffff") "aaaa").1 ((goStringLess_iff _ _).mp (by decide))⟩,
   ⟨(goStringLess_iff _ _).mp (by decide),
      (chooseRole_spec (InitDilation "aaaa") "ffff").2.1 ((goStringLess_iff _ _).mp (by decide))⟩,
   (chooseRole_spec (InitDilation "aaaa") "aaaa").2.2.2 rfl⟩

/-- Counterexample for C9: with equal sides, `chooseRole` does surface the
protocol-violation error, but the engine's manager state stays
`ManagerStateWaiting`; it does not become `ManagerStateStopped`.  Nothing
in the source transitions the engine to Stopped on this error. -/
theorem chooseRole_equal_counterexample :
    (chooseRole (InitDilation "0000000000000000") "0000000000000000").1
        = some "sides shouldn't be equal" ∧
    (chooseRole (InitDilation "0000000000000000") "0000000000000000").2.managerState
        = ManagerStateWaiting ∧
    ManagerStateWaiting ≠ ManagerStateStopped := by
  refine ⟨by decide, by decide, by decide⟩

/-- Amended C9: invoking role election with a peer side equal to the local
side returns the protocol-violation error `"sides shouldn't be equal"` and
leaves the whole engine — its manager state included — unchanged. -/
theorem chooseRole_equal_sides_spec (d : dilationProtocol) (otherSide : String)
    (h : d.side = otherSide) :
    chooseRole d otherSide = (some "sides shouldn't be equal", d) ∧
    (chooseRole d otherSide).2.managerState = d.managerState := by
  subst h
  unfold chooseRole
  rw [if_neg fun hc => lt_irrefl _ ((goStringLess_iff _ _).mp hc),
    if_neg fun hc => lt_irrefl _ ((goStringLess_iff _ _).mp hc)]
  exact ⟨rfl, rfl⟩

/-- Witness for the amended C9 at a concrete equal-sided engine. -/
theorem chooseRole_equal_sides_witness :
    chooseRole (InitDilation "0000000000000000") "0000000000000000"
        = (some "sides shouldn't be equal", InitDilation "0000000000000000") ∧
    (chooseRole (InitDilation "0000000000000000") "0000000000000000").2.managerState
        = (InitDilation "0000000000000000").managerState :=
  chooseRole_equal_sides_spec (InitDilation "0000000000000000") "0000000000000000" rfl

/-- Counterexample for C10: a freshly created engine does NOT have
connector state `ConnectorStateConnecting` and L2 state
`L2ConnStateUnselected`: the Go composite literal in `InitDilation` leaves
both fields at the zero value `""`. -/
theorem InitDilation_counterexample :
    ¬ ((InitDilation "aaaaaaaaaaaaaaaa").managerState = ManagerStateWaiting ∧
       (InitDilation "aaaaaaaaaaaaaaaa").connectorState = ConnectorStateConnecting ∧
       (InitDilation "aaaaaaaaaaaaaaaa").l2ConnState = L2ConnStateUnselected ∧
       (InitDilation "aaaaaaaaaaaaaaaa").versions = ["1"]) := by
  decide

/-- Amended C10: a freshly created engine has manager state Waiting and
versions `["1"]`, but its connector state and L2 connection state are the
Go zero value `""` (uninitialised), not `ConnectorStateConnecting` and not
`L2ConnStateUnselected`. -/
theorem InitDilation_spec (mySide : String) :
    (InitDilation mySide).managerState = ManagerStateWaiting ∧
    (InitDilation mySide).versions = ["1"] ∧
    (InitDilation mySide).connectorState = "" ∧
    (InitDilation mySide).connectorState ≠ ConnectorStateConnecting ∧
    (InitDilation mySide).l2ConnState = "" ∧
    (InitDilation mySide).l2ConnState ≠ L2ConnStateUnselected ∧
    (InitDilation mySide).side = mySide :=
  ⟨rfl, rfl, rfl,
    (by decide : ("" : String) ≠ ConnectorStateConnecting), rfl,
    (by decide : ("" : String) ≠ L2ConnStateUnselected), rfl⟩

/-- Inner switch of `managerStateMachine` for `ManagerInputEventStart`:
in Waiting, go to Wanting and send "please"; other states ignore it. -/
def managerStepStart (currState : ManagerState) :
    ManagerState × List ManagerOutputEvent :=
  if currState = ManagerStateWaiting then
    (ManagerStateWanting, [ManagerOutputEventSendPlease])
  else (currState, [])

/-- Inner switch for `ManagerInputEventRxPlease`. -/
def managerStepRxPlease (currState : ManagerState) :
    ManagerState × List ManagerOutputEvent :=
  if currState = ManagerStateWanting then
    (ManagerStateConnecting,
      [ManagerOutputEventChooseRole, ManagerOutputEventStartConnectingIgnoreMsg])
  else (currState, [])

/-- Inner switch for `ManagerInputEventConnectionMade`. -/
def managerStepConnectionMade (currState : ManagerState) :
    ManagerState × List ManagerOutputEvent :=
  if currState = ManagerStateConnecting then (ManagerStateConnected, [])
  else (currState, [])

/-- Inner switch for `ManagerInputEventRxReconnecting`. -/
def managerStepRxReconnecting (currState : ManagerState) :
    ManagerState × List ManagerOutputEvent :=
  if currState = ManagerStateFlushing then
    (ManagerStateConnecting, [ManagerOutputEventStartConnecting])
  else (currState, [])

/-- Inner switch for `ManagerInputEventRxReconnect`.  The Connecting arm
produces outputs without calling `managerToNewState`, so the state is
unchanged there. -/
def managerStepRxReconnect (currState : ManagerState) :
    ManagerState × List ManagerOutputEvent :=
  if currState = ManagerStateConnected then
    (ManagerStateAbandoning, [ManagerOutputEventAbandonConnection])
  else if currState = ManagerStateConnecting then
    (currState,
      [ManagerOutputEventStopConnecting, ManagerOutputEventSendReconnecting,
       ManagerOutputEventStartConnecting])
  else if currState = ManagerStateLonely then
    (ManagerStateConnecting,
      [ManagerOutputEventSendReconnecting, ManagerOutputEventStartConnecting])
  else (currState, [])

/-- Inner switch for `ManagerInputEventConnectionLostLeader`. -/
def managerStepConnectionLostLeader (currState : ManagerState) :
    ManagerState × List ManagerOutputEvent :=
  if currState = ManagerStateConnected then
    (ManagerStateFlushing, [ManagerOutputEventSendReconnect])
  else if currState = ManagerStateStopping then
    (ManagerStateStopped, [ManagerOutputEventNotifyStopped])
  else (currState, [])

/-- Inner switch for `ManagerInputEventConnectionLostFollower`. -/
def managerStepConnectionLostFollower (currState : ManagerState) :
    ManagerState × List ManagerOutputEvent :=
  if currState = ManagerStateConnected then (ManagerStateLonely, [])
  else if currState = ManagerStateAbandoning then
    (ManagerStateConnecting,
      [ManagerOutputEventSendReconnecting, ManagerOutputEventStartConnecting])
  else if currState = ManagerStateStopping then
    (ManagerStateStopped, [ManagerOutputEventNotifyStopped])
  else (currState, [])

/-- Inner switch for `ManagerInputEventRxHints`: six states have an
explicit do-nothing arm, Connecting forwards the hints; the Go
multi-value `case` is expanded into successive equality tests. -/
def managerStepRxHints (currState : ManagerState) :
    ManagerState × List ManagerOutputEvent :=
  if currState = ManagerStateWanting then (currState, [])
  else if currState = ManagerStateConnected then (currState, [])
  else if currState = ManagerStateAbandoning then (currState, [])
  else if currState = ManagerStateFlushing then (currState, [])
  else if currState = ManagerStateLonely then (currState, [])
  else if currState = ManagerStateStopping then (currState, [])
  else if currState = ManagerStateConnecting then
    (currState, [ManagerOutputEventUseHints])
  else (currState, [])

/-- Inner switch for `ManagerInputEventStop`; the Go multi-value
`case Waiting, Wanting, Lonely, Flushing:` is expanded into successive
equality tests with the same body. -/
def managerStepStop (currState : ManagerState) :
    ManagerState × List ManagerOutputEvent :=
  if currState = ManagerStateWaiting then
    (ManagerStateStopped, [ManagerOutputEventNotifyStopped])
  else if currState = ManagerStateWanting then
    (ManagerStateStopped, [ManagerOutputEventNotifyStopped])
  else if currState = ManagerStateLonely then
    (ManagerStateStopped, [ManagerOutputEventNotifyStopped])
  else if currState = ManagerStateFlushing then
    (ManagerStateStopped, [ManagerOutputEventNotifyStopped])
  else if currState = ManagerStateConnecting then
    (ManagerStateStopped,
      [ManagerOutputEventStopConnecting, ManagerOutputEventNotifyStopped])
  else if currState = ManagerStateConnected then
    (ManagerStateStopping, [ManagerOutputEventAbandonConnection])
  else if currState = ManagerStateAbandoning then
    (ManagerStateStopping, [])
  else (currState, [])

/-- Go method `managerStateMachine`, the giant nested switch: embedded as
a pure step function (current state, input event) → (next state, output
events).  The Go body reads `currState` from `d.managerState` and writes
the next state through `managerToNewState`; the returned slice starts as
`nil`, so arms that set nothing yield the empty list.  Each inner
per-event switch is the correspondingly named `managerStep…` function;
the logging `default` arm (unknown event codes) leaves the state
unchanged with no outputs. -/
def managerStateMachine (currState : ManagerState) (event : ManagerInputEvent) :
    ManagerState × List ManagerOutputEvent :=
  if event = ManagerInputEventStart then managerStepStart currState
  else if event = ManagerInputEventRxPlease then managerStepRxPlease currState
  else if event = ManagerInputEventConnectionMade then
    managerStepConnectionMade currState
  else if event = ManagerInputEventRxReconnecting then
    managerStepRxReconnecting currState
  else if event = ManagerInputEventRxReconnect then
    managerStepRxReconnect currState
  else if event = ManagerInputEventConnectionLostLeader then
    managerStepConnectionLostLeader currState
  else if event = ManagerInputEventConnectionLostFollower then
    managerStepConnectionLostFollower currState
  else if event = ManagerInputEventRxHints then managerStepRxHints currState
  else if event = ManagerInputEventStop then managerStepStop currState
  else (currState, [])

/-- Claim C2: the Stopped manager state is absorbing: every input event
(including unknown event codes) leaves the state at Stopped and emits no
output events. -/
theorem managerStateMachine_stopped_absorbing (event : ManagerInputEvent) :
    managerStateMachine ManagerStateStopped event = (ManagerStateStopped, []) := by
  unfold managerStateMachine
  split_ifs <;> decide

/-- The (state, event) pairs for which the Go manager switch has a case
arm that changes the state or produces output events: the non-blank cells
of the spec's manager transition table. -/
def managerListedPairs : List (ManagerState × ManagerInputEvent) :=
  [(ManagerStateWaiting, ManagerInputEventStart),
   (ManagerStateWanting, ManagerInputEventRxPlease),
   (ManagerStateConnecting, ManagerInputEventConnectionMade),
   (ManagerStateFlushing, ManagerInputEventRxReconnecting),
   (ManagerStateConnected, ManagerInputEventRxReconnect),
   (ManagerStateConnecting, ManagerInputEventRxReconnect),
   (ManagerStateLonely, ManagerInputEventRxReconnect),
   (ManagerStateConnected, ManagerInputEventConnectionLostLeader),
   (ManagerStateStopping, ManagerInputEventConnectionLostLeader),
   (ManagerStateConnected, ManagerInputEventConnectionLostFollower),
   (ManagerStateAbandoning, ManagerInputEventConnectionLostFollower),
   (ManagerStateStopping, ManagerInputEventConnectionLostFollower),
   (ManagerStateConnecting, ManagerInputEventRxHints),
   (ManagerStateWaiting, ManagerInputEventStop),
   (ManagerStateWanting, ManagerInputEventStop),
   (ManagerStateLonely, ManagerInputEventStop),
   (ManagerStateFlushing, ManagerInputEventStop),
   (ManagerStateConnecting, ManagerInputEventStop),
   (ManagerStateConnected, ManagerInputEventStop),
   (ManagerStateAbandoning, ManagerInputEventStop)]

/-- Claim C3: `managerStateMachine` is total — every (state, event) pair,
over all strings and all event codes, yields a result — and every pair
not listed in the transition table is a silent no-op: the state is
unchanged and the output list is empty. -/
theorem managerStateMachine_total_unlisted_noop (s : ManagerState)
    (e : ManagerInputEvent) :
    (∃ r, managerStateMachine s e = r) ∧
    ((s, e) ∉ managerListedPairs → managerStateMachine s e = (s, [])) := by
  refine ⟨⟨managerStateMachine s e, rfl⟩, fun hn => ?_⟩
  unfold managerStateMachine
  split_ifs with h0 h1 h2 h3 h4 h5 h6 h7 h8
  · unfold managerStepStart
    split_ifs <;> first | rfl | (exfalso; subst_vars; exact hn (by decide))
  · unfold managerStepRxPlease
    split_ifs <;> first | rfl | (exfalso; subst_vars; exact hn (by decide))
  · unfold managerStepConnectionMade
    split_ifs <;> first | rfl | (exfalso; subst_vars; exact hn (by decide))
  · unfold managerStepRxReconnecting
    split_ifs <;> first | rfl | (exfalso; subst_vars; exact hn (by decide))
  · unfold managerStepRxReconnect
    split_ifs <;> first | rfl | (exfalso; subst_vars; exact hn (by decide))
  · unfold managerStepConnectionLostLeader
    split_ifs <;> first | rfl | (exfalso; subst_vars; exact hn (by decide))
  · unfold managerStepConnectionLostFollower
    split_ifs <;> first | rfl | (exfalso; subst_vars; exact hn (by decide))
  · unfold managerStepRxHints
    split_ifs <;> first | rfl | (exfalso; subst_vars; exact hn (by decide))
  · unfold managerStepStop
    split_ifs <;> first | rfl | (exfalso; subst_vars; exact hn (by decide))
  · rfl

/-- Witness for C3 at a concrete unlisted pair: Stopped never reacts to
Start. -/
theorem managerStateMachine_total_unlisted_noop_witness :
    (ManagerStateStopped, ManagerInputEventStart) ∉ managerListedPairs ∧
    managerStateMachine ManagerStateStopped ManagerInputEventStart
      = (ManagerStateStopped, []) :=
  ⟨by decide, (managerStateMachine_total_unlisted_noop _ _).2 (by decide)⟩

/-- Inner switch of `connectorStateMachine` for
`ConnectorInputEventListenerReady`: Connecting publishes hints; the
explicit Connected arm and the default do nothing. -/
def connectorStepListenerReady (currState : ConnectorState) :
    ConnectorState × List ConnectorOutputEvent :=
  if currState = ConnectorStateConnecting then
    (currState, [ConnectorOutputEventPublishHints])
  else (currState, [])

/-- Inner switch for `ConnectorInputEventAccept`. -/
def connectorStepAccept (currState : ConnectorState) :
    ConnectorState × List ConnectorOutputEvent :=
  if currState = ConnectorStateConnecting then
    (ConnectorStateConnected, [ConnectorOutputEventSelectAndStopRemaining])
  else (currState, [])

/-- Inner switch for `ConnectorInputEventAddCandidate`. -/
def connectorStepAddCandidate (currState : ConnectorState) :
    ConnectorState × List ConnectorOutputEvent :=
  if currState = ConnectorStateConnecting then
    (currState, [ConnectorOutputEventConsider])
  else (currState, [])

/-- Inner switch for `ConnectorInputEventGotHints`. -/
def connectorStepGotHints (currState : ConnectorState) :
    ConnectorState × List ConnectorOutputEvent :=
  if currState = ConnectorStateConnecting then
    (currState, [ConnectorOutputEventUseHints])
  else (currState, [])

/-- Inner switch for `ConnectorInputEventAddRelay`. -/
def connectorStepAddRelay (currState : ConnectorState) :
    ConnectorState × List ConnectorOutputEvent :=
  if currState = ConnectorStateConnecting then
    (currState, [ConnectorOutputEventUseHints, ConnectorOutputEventPublishHints])
  else (currState, [])

/-- Inner switch for `ConnectorInputEventStop`; the Go multi-value
`case Connecting, Connected:` is expanded into successive equality tests
with the same body. -/
def connectorStepStop (currState : ConnectorState) :
    ConnectorState × List ConnectorOutputEvent :=
  if currState = ConnectorStateConnecting then
    (ConnectorStateStopped, [ConnectorOutputEventStopEverything])
  else if currState = ConnectorStateConnected then
    (ConnectorStateStopped, [ConnectorOutputEventStopEverything])
  else (currState, [])

/-- Go method `connectorStateMachine`: pure step function
(current state, input event) → (next state, output events); state writes
go through `connectorToNewState` in the source.  Events outside the six
named constants fall through the switch with no default arm, leaving the
state unchanged with no outputs. -/
def connectorStateMachine (currState : ConnectorState)
    (event : ConnectorInputEvent) :
    ConnectorState × List ConnectorOutputEvent :=
  if event = ConnectorInputEventListenerReady then
    connectorStepListenerReady currState
  else if event = ConnectorInputEventAccept then connectorStepAccept currState
  else if event = ConnectorInputEventAddCandidate then
    connectorStepAddCandidate currState
  else if event = ConnectorInputEventGotHints then connectorStepGotHints currState
  else if event = ConnectorInputEventAddRelay then connectorStepAddRelay currState
  else if event = ConnectorInputEventStop then connectorStepStop currState
  else (currState, [])

/-- Claim C8: in Connecting, AddRelay emits exactly [UseHints,
PublishHints] in that order and the connector state stays Connecting. -/
theorem connectorStateMachine_addRelay :
    connectorStateMachine ConnectorStateConnecting ConnectorInputEventAddRelay
      = (ConnectorStateConnecting,
         [ConnectorOutputEventUseHints, ConnectorOutputEventPublishHints]) := by
  decide

/-- Modelled from the spec: the hints payload type `transitHintsV1` (a
vector of {kind, priority, hostname, port} connection hints) is declared
outside the files under `src/`; the connector state machines only carry
it from input to output as an opaque payload, so it is modelled as a
wrapper around an abstract token. -/
structure transitHintsV1 where
  token : String
deriving DecidableEq

/-- Go zero value of `transitHintsV1` (all fields zero). -/
def zeroHints : transitHintsV1 :=
  { token := "" }

/-- Go struct `ConnectorInputEventS`: an input event together with its
optional payloads. -/
structure ConnectorInputEventS where
  Event : ConnectorInputEvent
  hints : transitHintsV1
  candidate : Candidate
deriving DecidableEq

/-- Go struct `ConnectorOutputEventS`: an output event together with the
payload it carries.  Fields omitted from a Go composite literal keep
their zero values (`zeroHints`, `""`). -/
structure ConnectorOutputEventS where
  Event : ConnectorOutputEvent
  hints : transitHintsV1
  candidate : Candidate
deriving DecidableEq

/-- Go method `processConnectorStateMachine`.  NOTE: the Go source
iterates `for output := range outputs`; ranging over a slice with a
single loop variable binds the INDEX, not the element, so the switch in
the loop body compares the position `0, 1, 2, …` of each output against
the output-event constants.  The embedding reproduces exactly that: it
folds over `List.range outputs.length` and dispatches on the index. -/
def processConnectorStateMachine (currState : ConnectorState)
    (input : ConnectorInputEventS) : List ConnectorOutputEventS :=
  let outputs := (connectorStateMachine currState input.Event).2
  (List.range outputs.length).foldl
    (fun acc output =>
      if (output : Int) = ConnectorOutputEventPublishHints then
        acc ++ [{ Event := ConnectorOutputEventPublishHints,
                  hints := input.hints, candidate := "" }]
      else if (output : Int) = ConnectorOutputEventSelectAndStopRemaining then
        acc ++ [{ Event := ConnectorOutputEventSelectAndStopRemaining,
                  hints := zeroHints, candidate := input.candidate }]
      else if (output : Int) = ConnectorOutputEventConsider then
        acc ++ [{ Event := ConnectorOutputEventConsider,
                  hints := zeroHints, candidate := input.candidate }]
      else if (output : Int) = ConnectorOutputEventUseHints then
        acc ++ [{ Event := ConnectorOutputEventUseHints,
                  hints := input.hints, candidate := "" }]
      else if (output : Int) = ConnectorOutputEventStopEverything then
        acc ++ [{ Event := ConnectorOutputEventStopEverything,
                  hints := zeroHints, candidate := "" }]
      else acc)
    []

/-- Claim C6 (code bug): at connector state Connecting with input event
Accept, `connectorStateMachine` emits `[SelectAndStopRemaining]`, yet
`processConnectorStateMachine` — whose `for output := range outputs` loop
binds the slice index instead of the element — wraps that single output
as a `PublishHints` struct carrying the hints payload, not a
`SelectAndStopRemaining` struct carrying the candidate. -/
theorem processConnectorStateMachine_range_bug :
    (connectorStateMachine ConnectorStateConnecting ConnectorInputEventAccept).2
      = [ConnectorOutputEventSelectAndStopRemaining] ∧
    processConnectorStateMachine ConnectorStateConnecting
        { Event := ConnectorInputEventAccept, hints := { token := "h1" },
          candidate := "candA" }
      = [{ Event := ConnectorOutputEventPublishHints,
           hints := { token := "h1" }, candidate := "" }] ∧
    ConnectorOutputEventPublishHints ≠ ConnectorOutputEventSelectAndStopRemaining := by
  refine ⟨by decide, by decide, by decide⟩

/-- Inner switch of `l2ConnStateMachine` for `L2ConnInputEventGotKCM`. -/
def l2StepGotKCM (currState : L2ConnState) :
    L2ConnState × List L2ConnOutputEvent :=
  if currState = L2ConnStateUnselected then
    (L2ConnStateSelecting, [L2ConnOutputEventAddCandidate])
  else (currState, [])

/-- Inner switch for `L2ConnInputEventSelect`. -/
def l2StepSelect (currState : L2ConnState) :
    L2ConnState × List L2ConnOutputEvent :=
  if currState = L2ConnStateSelecting then
    (L2ConnStateSelected,
      [L2ConnOutputEventSetManager, L2ConnOutputEventCanSendRecords,
       L2ConnOutputEventProcessInboundQueue])
  else (currState, [])

/-- Inner switch for `L2ConnInputEventGotRecord`. -/
def l2StepGotRecord (currState : L2ConnState) :
    L2ConnState × List L2ConnOutputEvent :=
  if currState = L2ConnStateSelecting then
    (currState, [L2ConnOutputEventQueueInboundRecord])
  else if currState = L2ConnStateSelected then
    (currState, [L2ConnOutputEventDeliverRecord])
  else (currState, [])

/-- Go method `l2ConnStateMachine`: pure step function (current state,
input event) → (next state, output events); state writes go through
`l2ConnToNewState` in the source.  Unknown event codes hit the logging
default and change nothing. -/
def l2ConnStateMachine (currState : L2ConnState) (event : L2ConnInputEvent) :
    L2ConnState × List L2ConnOutputEvent :=
  if event = L2ConnInputEventGotKCM then l2StepGotKCM currState
  else if event = L2ConnInputEventSelect then l2StepSelect currState
  else if event = L2ConnInputEventGotRecord then l2StepGotRecord currState
  else (currState, [])

/-- The four (state, event) pairs with a transition arm in the Go L2
switch. -/
def l2ListedPairs : List (L2ConnState × L2ConnInputEvent) :=
  [(L2ConnStateUnselected, L2ConnInputEventGotKCM),
   (L2ConnStateSelecting, L2ConnInputEventSelect),
   (L2ConnStateSelecting, L2ConnInputEventGotRecord),
   (L2ConnStateSelected, L2ConnInputEventGotRecord)]

/-- Claim C7: `l2ConnStateMachine` realises exactly the four listed L2
transitions, with the stated output events in the stated order, and every
other (state, event) pair changes nothing and emits nothing. -/
theorem l2ConnStateMachine_exact :
    l2ConnStateMachine L2ConnStateUnselected L2ConnInputEventGotKCM
      = (L2ConnStateSelecting, [L2ConnOutputEventAddCandidate]) ∧
    l2ConnStateMachine L2ConnStateSelecting L2ConnInputEventSelect
      = (L2ConnStateSelected,
         [L2ConnOutputEventSetManager, L2ConnOutputEventCanSendRecords,
          L2ConnOutputEventProcessInboundQueue]) ∧
    l2ConnStateMachine L2ConnStateSelecting L2ConnInputEventGotRecord
      = (L2ConnStateSelecting, [L2ConnOutputEventQueueInboundRecord]) ∧
    l2ConnStateMachine L2ConnStateSelected L2ConnInputEventGotRecord
      = (L2ConnStateSelected, [L2ConnOutputEventDeliverRecord]) ∧
    ∀ (s : L2ConnState) (e : L2ConnInputEvent),
      (s, e) ∉ l2ListedPairs → l2ConnStateMachine s e = (s, []) := by
  refine ⟨by decide, by decide, by decide, by decide, ?_⟩
  intro s e hn
  unfold l2ConnStateMachine
  split_ifs with h0 h1 h2
  · unfold l2StepGotKCM
    split_ifs <;> first | rfl | (exfalso; subst_vars; exact hn (by decide))
  · unfold l2StepSelect
    split_ifs <;> first | rfl | (exfalso; subst_vars; exact hn (by decide))
  · unfold l2StepGotRecord
    split_ifs <;> first | rfl | (exfalso; subst_vars; exact hn (by decide))
  · rfl

/-- Witness for C7's no-op clause at a concrete unlisted pair: Selected
ignores GotKCM. -/
theorem l2ConnStateMachine_exact_witness :
    (L2ConnStateSelected, L2ConnInputEventGotKCM) ∉ l2ListedPairs ∧
    l2ConnStateMachine L2ConnStateSelected L2ConnInputEventGotKCM
      = (L2ConnStateSelected, []) :=
  ⟨by decide, l2ConnStateMachine_exact.2.2.2.2 _ _ (by decide)⟩

/-- One field of a Go struct as `encoding/json` sees it: the Go field
name, the name given in its `json:"…"` tag, and its (string) value. -/
structure goJsonField where
  goName : String
  tag : String
  value : String
deriving DecidableEq

/-- A Go identifier is exported iff its first character is upper case. -/
def goIsExportedName (name : String) : Bool :=
  match name.data with
  | [] => false
  | c :: _ => c.isUpper

/-- Wrap a string in JSON double quotes. -/
def jsonQuote (s : String) : String :=
  "\"" ++ s ++ "\""

/-- Comma-separated join, as `encoding/json` writes object members. -/
def joinComma : List String → String
  | [] => ""
  | [x] => x
  | x :: xs => x ++ "," ++ joinComma xs

/-- Model of `encoding/json.Marshal` restricted to what the source needs:
a flat struct whose fields are all strings.  Marshal serialises ONLY
exported fields (Go name starting with an upper-case letter); unexported
fields are silently skipped, their `json:"…"` tags notwithstanding.  An
exported field is emitted as its quoted tag, a colon, and its quoted
value (the values used here never need JSON escaping).  Such a marshal
never fails, so the paired Go `error` is always nil. -/
def goJsonMarshalStruct (fields : List goJsonField) : String :=
  "\x7b" ++
    joinComma ((fields.filter fun f => goIsExportedName f.goName).map
      fun f => jsonQuote f.tag ++ ":" ++ jsonQuote f.value) ++
  "\x7d"

/-- Go struct `pleaseMsg`: both fields are unexported (lower-case `tipe`
and `side`), carrying tags `json:"type"` and `json:"side"`. -/
structure pleaseMsg where
  tipe : String
  side : String
deriving DecidableEq

/-- The field list of a `pleaseMsg` value, with Go names and tags. -/
def pleaseMsgFields (m : pleaseMsg) : List goJsonField :=
  [{ goName := "tipe", tag := "type", value := m.tipe },
   { goName := "side", tag := "side", value := m.side }]

/-- Go method `genPleaseMsg`: builds the struct value with `tipe`
`"please"` and `side` the engine's side, and returns `json.Marshal` of
it together with the nil error. -/
def genPleaseMsg (d : dilationProtocol) : String × Option String :=
  (goJsonMarshalStruct (pleaseMsgFields { tipe := "please", side := d.side }),
   none)

/-- Go struct `dilateAddMsg`: all three fields unexported (`tipe`,
`phase`, `body`), tagged `json:"type"`, `json:"phase"`, `json:"body"`. -/
structure dilateAddMsg where
  tipe : String
  phase : String
  body : String
deriving DecidableEq

/-- The field list of a `dilateAddMsg` value, with Go names and tags. -/
def dilateAddMsgFields (m : dilateAddMsg) : List goJsonField :=
  [{ goName := "tipe", tag := "type", value := m.tipe },
   { goName := "phase", tag := "phase", value := m.phase },
   { goName := "body", tag := "body", value := m.body }]

/-- The lower-case hex digit of a nibble, as in Go `encoding/hex`'s table
"0123456789abcdef". -/
def hexDigitChar (n : Nat) : Char :=
  if n < 10 then Char.ofNat (48 + n) else Char.ofNat (87 + n)

/-- Go `hex.EncodeToString` on a byte slice (bytes modelled as `Nat`
values below 256): two lower-case hex digits per byte, high nibble
first. -/
def hexEncodeToString (payload : List Nat) : String :=
  String.mk (payload.foldr
    (fun b acc => hexDigitChar (b / 16 % 16) :: hexDigitChar (b % 16) :: acc)
    [])

/-- Go function `genDilationMsg`: builds a `dilateAddMsg` with `tipe`
`"add"`, `phase` equal to `fmt.Sprintf("dilate-%d", phase)` (decimal
rendering of the Go int) and `body` the lower-case hex of the payload,
and returns `json.Marshal` of it with the nil error. -/
def genDilationMsg (payload : List Nat) (phase : Int) : String × Option String :=
  (goJsonMarshalStruct (dilateAddMsgFields
      { tipe := "add"
        phase := "dilate-" ++ toString phase
        body := hexEncodeToString payload }),
   none)

/-- The please frame that the spec and the struct's own json tags
prescribe. -/
def pleaseJsonIntended (side : String) : String :=
  "\x7b\"type\":\"please\",\"side\":\"" ++ side ++ "\"\x7d"

/-- The dilation add frame that the spec and the struct's own json tags
prescribe. -/
def dilateAddJsonIntended (payload : List Nat) (phase : Int) : String :=
  "\x7b\"type\":\"add\",\"phase\":\"dilate-" ++ toString phase ++
    "\",\"body\":\"" ++ hexEncodeToString payload ++ "\"\x7d"

/-- Claim C4 (code bug): `genPleaseMsg` does return without error, but
the returned byte string is the empty JSON object: `encoding/json`
skips the unexported fields `tipe` and `side`, so neither a "type" nor a
"side" member is emitted, contrary to the struct's json tags and to the
spec's please frame. -/
theorem genPleaseMsg_bug :
    genPleaseMsg (InitDilation "aaaaaaaaaaaaaaaa") = ("\x7b\x7d", none) ∧
    pleaseJsonIntended "aaaaaaaaaaaaaaaa"
      = "\x7b\"type\":\"please\",\"side\":\"aaaaaaaaaaaaaaaa\"\x7d" ∧
    genPleaseMsg (InitDilation "aaaaaaaaaaaaaaaa")
      ≠ (pleaseJsonIntended "aaaaaaaaaaaaaaaa", none) := by
  refine ⟨by decide, rfl, by decide⟩

/-- Claim C5 (code bug): `genDilationMsg` does return without error, but
the returned byte string is the empty JSON object for every payload and
phase: `encoding/json` skips the unexported fields `tipe`, `phase` and
`body`, contrary to the struct's json tags and to the spec's add frame.
At payload de ad and phase 0 the intended frame would carry
"dilate-0" and body "dead". -/
theorem genDilationMsg_bug :
    genDilationMsg [222, 173] 0 = ("\x7b\x7d", none) ∧
    dilateAddJsonIntended [222, 173] 0
      = "\x7b\"type\":\"add\",\"phase\":\"dilate-0\",\"body\":\"dead\"\x7d" ∧
    genDilationMsg [222, 173] 0 ≠ (dilateAddJsonIntended [222, 173] 0, none) := by
  refine ⟨by decide, by decide, by decide⟩

/-- Witness instantiating C2 at the concrete Stop event. -/
theorem managerStateMachine_stopped_absorbing_witness :
    managerStateMachine ManagerStateStopped ManagerInputEventStop
      = (ManagerStateStopped, []) :=
  managerStateMachine_stopped_absorbing ManagerInputEventStop

/-- Witness instantiating the amended C10 at a concrete side. -/
theorem InitDilation_spec_witness :
    (InitDilation "aaaaaaaaaaaaaaaa").managerState = ManagerStateWaiting ∧
    (InitDilation "aaaaaaaaaaaaaaaa").versions = ["1"] ∧
    (InitDilation "aaaaaaaaaaaaaaaa").connectorState = "" ∧
    (InitDilation "aaaaaaaaaaaaaaaa").connectorState ≠ ConnectorStateConnecting ∧
    (InitDilation "aaaaaaaaaaaaaaaa").l2ConnState = "" ∧
    (InitDilation "aaaaaaaaaaaaaaaa").l2ConnState ≠ L2ConnStateUnselected ∧
    (InitDilation "aaaaaaaaaaaaaaaa").side = "aaaaaaaaaaaaaaaa" :=
  InitDilation_spec "aaaaaaaaaaaaaaaa"
